import Mathlib

/-!
Verification development for the automate-yt media composition pipeline.

Strings from the TypeScript source are embedded as `List Char` (named `Str`
below), so that the rich list library applies to the command/document
construction performed by the code.  Pure functions of the source are
translated directly; effectful functions (external tool invocations,
filesystem checks) are modelled by passing in an explicit environment
record describing the outcome of each external call.  Template-literal
line continuations in the source commands are normalized to single spaces.
-/

namespace AutomateYT

/-- Character-list strings; `str` converts a Lean string literal. -/
abbrev Str := List Char

def str (s : String) : Str := s.toList

/-! ## Timeline builder (src/modules/script/generateScript.ts)

`generateScript` derives each segment word count as `text.split(' ').length`
(JavaScript `String.prototype.split` with a single-space separator keeps
empty fields), computes `Math.ceil(wordCount / 2.5)` seconds per segment and
lays the segments out back-to-back from time 0, accumulating `currentTime`.
-/

/-- JavaScript `text.split(' ')`: the fields obtained by cutting at every
single space character; empty fields are kept, and the empty string yields
one empty field. -/
def splitOnSpace : Str → List Str
  | [] => [[]]
  | c :: cs =>
    if c = ' ' then [] :: splitOnSpace cs
    else
      match splitOnSpace cs with
      | [] => [[c]]
      | f :: rest => (c :: f) :: rest

/-- `text.split(' ').length`, the word count used by `generateScript`. -/
def wordCount (s : Str) : ℕ := (splitOnSpace s).length

/-- Modelled from the spec: "word count is derived by whitespace
tokenization" — the number of maximal runs of non-whitespace characters.
The boolean argument records whether we are inside such a run. -/
def countWsTokens : Bool → Str → ℕ
  | _, [] => 0
  | inWord, c :: cs =>
    if c = ' ' ∨ c = '\n' ∨ c = '\t' ∨ c = '\r' then countWsTokens false cs
    else (if inWord then 0 else 1) + countWsTokens true cs

/-- Modelled from the spec: whitespace tokenization word count. -/
def whitespaceWordCount (s : Str) : ℕ := countWsTokens false s

/-- `calculateSegmentDuration`: `Math.ceil(wordCount / 2.5)`. -/
def calculateSegmentDuration (wc : ℕ) : ℕ := ⌈(wc : ℚ) / 2.5⌉₊

/-- One script segment as laid out by `generateScript` (the `type` and
`visualHint` fields play no role in the timing claims and are omitted). -/
structure ScriptSegment where
  startTime : ℕ
  endTime : ℕ
  duration : ℕ
  text : Str
deriving DecidableEq

/-- The layout loop of `generateScript`: starting from `curr`
(`currentTime`), each text is given `calculateSegmentDuration` of its word
count and the clock advances by that duration. -/
def layoutFrom (curr : ℕ) : List Str → List ScriptSegment
  | [] => []
  | t :: ts =>
    let d := calculateSegmentDuration (wordCount t)
    { startTime := curr, endTime := curr + d, duration := d, text := t }
      :: layoutFrom (curr + d) ts

/-- The segments of the generated script, laid out from time 0. -/
def buildSegments (texts : List Str) : List ScriptSegment := layoutFrom 0 texts

/-- The final value of `currentTime`, stored as `estimatedDuration`. -/
def finalTime (curr : ℕ) : List Str → ℕ
  | [] => curr
  | t :: ts => finalTime (curr + calculateSegmentDuration (wordCount t)) ts

/-- `estimatedDuration` of the generated script. -/
def estimatedDuration (texts : List Str) : ℕ := finalTime 0 texts

/-- A text of `k` single-space-separated one-letter words, used to realize
given word counts concretely. -/
def mkWords (k : ℕ) : Str := List.intercalate [' '] (List.replicate k ['w'])

/-- The six texts of the worked example, with word counts 8, 30, 40, 45,
12, 10. -/
def exampleTexts : List Str :=
  [mkWords 8, mkWords 30, mkWords 40, mkWords 45, mkWords 12, mkWords 10]

/-! ## Caption track generator (src/modules/video/generateVideo.ts 122–149)

`generateCaptions` walks the segments with a counter starting at 1 and
appends, per segment, the block `index \n start --> end \n text \n\n`,
with `formatTime` rendering `HH:MM:SS,mmm` via `padStart(2,'0')` /
`padStart(3,'0')`.  Segment times in this pipeline are the integer second
offsets produced by the timeline builder, so `formatTime` is embedded on
naturals (its `(seconds % 1) * 1000` millisecond part is kept verbatim).
-/

/-- The decimal digit character for `d < 10` (code point 48 + d). -/
def digitChar (d : ℕ) : Char := Char.ofNat (48 + d)

/-- Decimal digits of a natural, fuel-driven so it reduces in the kernel;
`natDigits` below always supplies enough fuel. -/
def natDigitsAux : ℕ → ℕ → Str
  | 0, _ => []
  | fuel + 1, n =>
    if n < 10 then [digitChar n]
    else natDigitsAux fuel (n / 10) ++ [digitChar (n % 10)]

/-- JavaScript `n.toString()` for a natural number. -/
def natDigits (n : ℕ) : Str := natDigitsAux (n + 1) n

/-- JavaScript `s.padStart(len, c)`: left-pad to `len`, never truncate. -/
def padStart (s : Str) (len : ℕ) (c : Char) : Str :=
  List.replicate (len - s.length) c ++ s

/-- `formatTime(seconds)` of `VideoGenerator`. -/
def formatTime (seconds : ℕ) : Str :=
  padStart (natDigits (seconds / 3600)) 2 '0' ++ str ":"
    ++ padStart (natDigits (seconds % 3600 / 60)) 2 '0' ++ str ":"
    ++ padStart (natDigits (seconds % 60)) 2 '0' ++ str ","
    ++ padStart (natDigits (seconds % 1 * 1000)) 3 '0'

/-- One caption cue of the generated subtitle document. -/
structure CaptionCue where
  index : ℕ
  startTime : ℕ
  endTime : ℕ
  text : Str
deriving DecidableEq

/-- The rendered block of one cue: number, time range, text, blank line. -/
def renderCue (c : CaptionCue) : Str :=
  natDigits c.index ++ str "\n"
    ++ formatTime c.startTime ++ str " --> " ++ formatTime c.endTime ++ str "\n"
    ++ c.text ++ str "\n\n"

/-- The `generateCaptions` loop: `captionIndex` starts at `k` and each
segment contributes one rendered block. -/
def captionsLoop (k : ℕ) : List ScriptSegment → Str
  | [] => []
  | s :: rest =>
    renderCue { index := k, startTime := s.startTime, endTime := s.endTime, text := s.text }
      ++ captionsLoop (k + 1) rest

/-- The full caption document (`captionsContent`), indices from 1. -/
def captionsContent (segs : List ScriptSegment) : Str := captionsLoop 1 segs

/-- The cues of the document, as structured records. -/
def cuesFrom (k : ℕ) : List ScriptSegment → List CaptionCue
  | [] => []
  | s :: rest =>
    { index := k, startTime := s.startTime, endTime := s.endTime, text := s.text }
      :: cuesFrom (k + 1) rest

/-- The caption cues emitted for a segment list, 1-indexed. -/
def captionCues (segs : List ScriptSegment) : List CaptionCue := cuesFrom 1 segs

/-! ## Render graph compiler (src/modules/video/generateVideo.ts 151–231)

`renderWithFFmpeg` builds one ffmpeg invocation: per asset a looped image
input held for a uniform 2-second slot, a `setpts`/`concat` video chain in
asset order, a narration/music volume-and-amix stage chosen by whether the
background-music file exists, and a final `subtitles` burn-in filter.
-/

/-- `segmentDurations`: one display duration per asset, always 2 seconds
(the code ignores the timeline's per-segment durations here). -/
def segmentDurations (assets : List Str) : List ℕ := assets.map (fun _ => 2)

/-- The image-input loop: from asset index `i`, accumulate the `-loop 1 -t
d -i "asset"` input options (first component) and the
`[i:v]setpts=PTS-STARTPTS[vi];` filters (second component). -/
def renderInputsLoop : List (Str × ℕ) → ℕ → Str × Str
  | [], _ => ([], [])
  | (a, d) :: rest, i =>
    let (ins, fc) := renderInputsLoop rest (i + 1)
    (str "-loop 1 -t " ++ natDigits d ++ str " -i \"" ++ a ++ str "\" " ++ ins,
     str "[" ++ natDigits i ++ str ":v]setpts=PTS-STARTPTS[v" ++ natDigits i
       ++ str "];" ++ fc)

/-- The `concatInputs` loop: `[v i][v (i+1)]…`, `k` labels from index `i`. -/
def concatLabels : ℕ → ℕ → Str
  | _, 0 => []
  | i, k + 1 => str "[v" ++ natDigits i ++ str "]" ++ concatLabels (i + 1) k

/-- Narration volume applied when background music is present
(`volume=0.3` on the narration input stream). -/
def narrationVolumeWithMusic : ℚ := 0.3

/-- Music volume applied when background music is present (`volume=0.1`
on the music input stream). -/
def musicVolume : ℚ := 0.1

/-- Narration volume when no background music exists (`volume=1.0`). -/
def narrationVolumeSolo : ℚ := 1.0

/-- The audio stage of the filter graph: with music, narration (input
stream `n`, labelled `[music]` in the code) at 0.3 and the music file
(input stream `n+1`, labelled `[bg]`) at 0.1 are mixed with
`duration=longest`; without, narration passes through at `volume=1.0`. -/
def audioFilterStage (n : ℕ) (musicPresent : Bool) : Str :=
  if musicPresent then
    str ";[" ++ natDigits n ++ str ":a]volume=0.3[music];["
      ++ natDigits (n + 1)
      ++ str ":a]volume=0.1[bg];[music][bg]amix=inputs=2:duration=longest[aout]"
  else
    str "[" ++ natDigits n ++ str ":a]volume=1.0[aout]"

/-- `captionsPath.replace(/'/g, "'\\''")`: shell-escape single quotes. -/
def escapeSingleQuotes (s : Str) : Str :=
  s.flatMap (fun c => if c = '\x27' then str "\x27\\\x27\x27" else [c])

/-- The caption burn-in filter appended last to the filter graph, applied
to the concatenated video stream `[outv]` with a fixed font/size/color
style. -/
def subtitlesStage (capPath : Str) : Str :=
  str ";[outv]subtitles=\x27" ++ escapeSingleQuotes capPath
    ++ str "\x27:force_style=\x27FontName=Arial,FontSize=24,PrimaryColour=&HFFFFFF&\x27[finalv]"

/-- The inputs of one render-graph compilation.  `musicPresent` records
whether `fs.access` found the background-music file. -/
structure RenderArgs where
  voiceoverPath : Str
  assets : List Str
  captionsPath : Str
  musicPresent : Bool
  musicPath : Str
  outputPath : Str
  width : ℕ
  height : ℕ
  framerate : ℕ
deriving DecidableEq

/-- The `filter_complex` value: per-input `setpts` filters, the `concat`
stage over all assets in order, the audio stage, and finally the caption
burn-in. -/
def filterComplexFor (args : RenderArgs) : Str :=
  (renderInputsLoop (args.assets.zip (segmentDurations args.assets)) 0).2
    ++ concatLabels 0 args.assets.length
    ++ str "concat=n=" ++ natDigits args.assets.length ++ str ":v=1:a=0[outv];"
    ++ audioFilterStage args.assets.length args.musicPresent
    ++ subtitlesStage args.captionsPath

/-- The `-i` input list: the looped image inputs, then the voiceover,
then (if present) the background music. -/
def inputsFor (args : RenderArgs) : Str :=
  (renderInputsLoop (args.assets.zip (segmentDurations args.assets)) 0).1
    ++ str "-i \"" ++ args.voiceoverPath ++ str "\" "
    ++ (if args.musicPresent then str "-i \"" ++ args.musicPath ++ str "\" " else [])

/-- The full ffmpeg command built by `renderWithFFmpeg`. -/
def ffmpegCommand (args : RenderArgs) : Str :=
  str "ffmpeg " ++ inputsFor args
    ++ str "-filter_complex \"" ++ filterComplexFor args
    ++ str "\" -map \"[finalv]\" -map \"[aout]\" -c:v libx264 -preset medium -crf 23 -c:a aac -b:a 192k -r "
    ++ natDigits args.framerate ++ str " -s " ++ natDigits args.width ++ str "x"
    ++ natDigits args.height ++ str " -pix_fmt yuv420p -shortest -y \""
    ++ args.outputPath ++ str "\""

/-! ## Video generation control flow (src/modules/video/generateVideo.ts 28–73, 219–231)

`generateVideo` invokes `renderWithFFmpeg` once (bounded by a 300000 ms
`exec` timeout), then `fs.stat`s the output and throws if it is empty; any
error is logged and rethrown, with no retry.
-/

/-- Outcome of the single external renderer invocation. -/
inductive RenderOutcome
  | success
  | failure
  | timeout
deriving DecidableEq

/-- Environment of one `generateVideo` run: how the renderer invocation
ends and the byte size `fs.stat` reports for the output file. -/
structure RenderEnv where
  outcome : RenderOutcome
  outputSize : ℕ
deriving DecidableEq

/-- The `exec` timeout passed for the render invocation, in milliseconds. -/
def renderTimeoutMs : ℕ := 300000

/-- `renderWithFFmpeg` as an invocation: its result and how many times the
renderer was invoked (always exactly once — there is no retry loop). -/
def renderInvocation (env : RenderEnv) : Except Str Unit × ℕ :=
  match env.outcome with
  | .success => (.ok (), 1)
  | .failure => (.error (str "ffmpeg invocation failed"), 1)
  | .timeout => (.error (str "ffmpeg invocation timed out"), 1)

/-- The `generateVideo` control flow: render once, then validate that the
output file is non-empty; errors propagate unchanged.  The second
component counts renderer invocations. -/
def generateVideoRun (env : RenderEnv) (outputPath : Str) : Except Str Str × ℕ :=
  match renderInvocation env with
  | (.error e, n) => (.error e, n)
  | (.ok _, n) =>
    if env.outputSize = 0 then (.error (str "Generated video file is empty"), n)
    else (.ok outputPath, n)

/-! ## Visual asset provisioner (src/modules/video/generateVideo.ts 93–109)

`createSegmentImage` tries ImageMagick `convert`; if that invocation
errors it runs the ffmpeg flat-color command instead.  Neither path checks
the produced file's size, and an error of the ffmpeg fallback itself is
not caught.
-/

/-- Environment for one `createSegmentImage` call: each external
invocation either errors or succeeds producing a file of the given byte
size. -/
structure SegmentImageEnv where
  convertResult : Except Unit ℕ
  ffmpegResult : Except Unit ℕ

/-- Result of provisioning one segment image: a file (with its size and
whether the ffmpeg fallback produced it), or an error reaching the
caller. -/
inductive AssetOutcome
  | file (size : ℕ) (usedFallback : Bool)
  | errorRaised
deriving DecidableEq

/-- `createSegmentImage`: try `convert`; on invocation error, run the
ffmpeg flat-color fallback; a fallback error propagates. -/
def createSegmentImage (env : SegmentImageEnv) : AssetOutcome :=
  match env.convertResult with
  | .ok size => .file size false
  | .error _ =>
    match env.ffmpegResult with
    | .ok size => .file size true
    | .error _ => .errorRaised

/-! ## Thumbnail composer (src/modules/thumbnail/generateThumbnail.ts)

`generateThumbnail` tries: extract a frame, overlay with ImageMagick
(falling back internally to an ffmpeg `drawtext` overlay on the same
frame), then `stat` the result and throw if empty.  Any error in that
block falls into the catch, which runs `generateFallbackThumbnail` (flat
color + centered text) without further protection: its own error
propagates, and its output size is never checked.
-/

/-- Environment of one `generateThumbnail` call. -/
structure ThumbEnv where
  extractOk : Bool
  convertOk : Bool
  drawtextOk : Bool
  overlaySize : ℕ
  flatResult : Except Unit ℕ

/-- Result of thumbnail composition: an image of some byte size produced
at fallback level 1 (ImageMagick overlay), 2 (ffmpeg drawtext overlay) or
3 (flat color), or a terminal error. -/
inductive ThumbOutcome
  | image (size : ℕ) (level : ℕ)
  | terminalError
deriving DecidableEq

/-- `createThumbnailWithOverlay`: ImageMagick first, else the ffmpeg
drawtext overlay; returns the level that succeeded. -/
def createThumbnailWithOverlay (env : ThumbEnv) : Except Unit ℕ :=
  if env.convertOk then .ok 1
  else if env.drawtextOk then .ok 2
  else .error ()

/-- `generateFallbackThumbnail`: the flat-color drawtext command; its
output size is not validated. -/
def generateFallbackThumbnail (env : ThumbEnv) : ThumbOutcome :=
  match env.flatResult with
  | .ok s => .image s 3
  | .error _ => .terminalError

/-- `generateThumbnail`: frame extraction and overlay inside the try
block (a zero-size overlay result throws), with the flat-color fallback
run from the catch. -/
def generateThumbnail (env : ThumbEnv) : ThumbOutcome :=
  if env.extractOk then
    match createThumbnailWithOverlay env with
    | .ok lvl =>
      if env.overlaySize = 0 then generateFallbackThumbnail env
      else .image env.overlaySize lvl
    | .error _ => generateFallbackThumbnail env
  else generateFallbackThumbnail env

/-- The five title openers drawn from in `createThumbnailTitle`
(`prefixes` in the source). -/
def thumbnailTitleOpeners : List Str :=
  [str "How to", str "Complete Guide to", str "Master", str "Learn", str "Discover"]

/-- `createThumbnailTitle(query)`: a random opener is drawn (into the
variable named `suffix` in the source) but never used; the result is the
query, truncated to its first 40 characters plus `"..."` when longer
than 40. -/
def createThumbnailTitle (r : ℕ) (query : Str) : Str :=
  let _drawn := thumbnailTitleOpeners.getD (r % thumbnailTitleOpeners.length) []
  if 40 < query.length then query.take 40 ++ str "..." else query

/-! # Theorems -/

/-- Closed form of `Math.ceil(wc / 2.5)` over the naturals, used to make
concrete timelines computable by `decide`. -/
theorem calculateSegmentDuration_eq (wc : ℕ) :
    calculateSegmentDuration wc = (2 * wc + 4) / 5 := by
  unfold calculateSegmentDuration
  apply le_antisymm
  · rw [Nat.ceil_le, div_le_iff₀ (by norm_num : (0:ℚ) < 2.5)]
    have h : 2 * wc ≤ 5 * ((2 * wc + 4) / 5) := by omega
    have h2 : (2 * wc : ℚ) ≤ 5 * ((2 * wc + 4) / 5 : ℕ) := by exact_mod_cast h
    nlinarith [h2]
  · rcases Nat.eq_zero_or_pos ((2 * wc + 4) / 5) with h0 | hpos
    · omega
    · have hlt : 5 * ((2 * wc + 4) / 5 - 1) < 2 * wc := by omega
      have hq : ((((2 * wc + 4) / 5 : ℕ) - 1 : ℕ) : ℚ) < (wc : ℚ) / 2.5 := by
        rw [lt_div_iff₀ (by norm_num : (0:ℚ) < 2.5)]
        have := (Nat.cast_lt (α := ℚ)).2 hlt
        push_cast [Nat.cast_sub hpos] at this ⊢
        nlinarith [this]
      have := Nat.lt_ceil.2 hq
      omega

/-- Durations of the laid-out segments are exactly the per-text
`calculateSegmentDuration` values, in order. -/
theorem layoutFrom_map_duration (ts : List Str) : ∀ curr,
    (layoutFrom curr ts).map ScriptSegment.duration
      = ts.map (fun t => calculateSegmentDuration (wordCount t)) := by
  induction ts with
  | nil => intro curr; rfl
  | cons t ts ih => intro curr; simp [layoutFrom, ih]

/-- The head of a layout starts at the current clock value. -/
theorem layoutFrom_head_start (ts : List Str) (curr : ℕ) (y : ScriptSegment)
    (h : (layoutFrom curr ts).head? = some y) : y.startTime = curr := by
  cases ts with
  | nil => simp [layoutFrom] at h
  | cons t ts =>
    simp [layoutFrom] at h
    rw [← h]

/-- Contiguity: in a layout, each segment's end equals the next one's
start. -/
theorem layoutFrom_chain (ts : List Str) : ∀ curr,
    List.Chain' (fun a b => a.endTime = b.startTime) (layoutFrom curr ts) := by
  induction ts with
  | nil => intro curr; simp [layoutFrom]
  | cons t ts ih =>
    intro curr
    rw [layoutFrom, List.chain'_cons']
    refine ⟨fun y hy => ?_, ih _⟩
    have := layoutFrom_head_start ts _ y hy
    simpa using this.symm

/-- The last laid-out segment ends at the final clock value. -/
theorem layoutFrom_getLast (ts : List Str) : ∀ curr, ts ≠ [] →
    ((layoutFrom curr ts).getLast?).map ScriptSegment.endTime
      = some (finalTime curr ts) := by
  induction ts with
  | nil => intro curr h; exact absurd rfl h
  | cons t ts ih =>
    intro curr _
    cases ts with
    | nil => simp [layoutFrom, finalTime]
    | cons t2 ts2 =>
      have h2 : layoutFrom curr (t :: t2 :: ts2)
          = ({ startTime := curr,
               endTime := curr + calculateSegmentDuration (wordCount t),
               duration := calculateSegmentDuration (wordCount t),
               text := t } : ScriptSegment)
            :: layoutFrom (curr + calculateSegmentDuration (wordCount t)) (t2 :: ts2) := rfl
      rw [h2]
      have h3 : layoutFrom (curr + calculateSegmentDuration (wordCount t)) (t2 :: ts2)
          = ({ startTime := curr + calculateSegmentDuration (wordCount t),
               endTime := curr + calculateSegmentDuration (wordCount t)
                 + calculateSegmentDuration (wordCount t2),
               duration := calculateSegmentDuration (wordCount t2),
               text := t2 } : ScriptSegment)
            :: layoutFrom (curr + calculateSegmentDuration (wordCount t)
                 + calculateSegmentDuration (wordCount t2)) ts2 := rfl
      rw [h3, List.getLast?_cons_cons, ← h3, ih _ (by simp)]
      simp [finalTime]

/-- C1 (amended): the timeline builder gives every segment a duration of
`ceil(wordCount / 2.5)` seconds — where the word count is the number of
fields of `text.split(' ')`, i.e. splitting at single space characters
with empty fields kept, not whitespace tokenization — and lays the
segments out back-to-back from 0, so consecutive end/start offsets agree
and the last end equals the total duration; word counts
[8, 30, 40, 45, 12, 10] give durations [4,12,16,18,5,4], starts
0,4,16,32,50,55 and total 59. -/
theorem timelineBuilder_layout (texts : List Str) :
    (buildSegments texts).map ScriptSegment.duration
      = texts.map (fun t => calculateSegmentDuration (wordCount t))
  ∧ List.Chain' (fun a b => a.endTime = b.startTime) (buildSegments texts)
  ∧ (texts ≠ [] →
      ((buildSegments texts).getLast?).map ScriptSegment.endTime
        = some (estimatedDuration texts))
  ∧ (∀ y, (buildSegments texts).head? = some y → y.startTime = 0)
  ∧ (buildSegments exampleTexts).map ScriptSegment.duration = [4, 12, 16, 18, 5, 4]
  ∧ (buildSegments exampleTexts).map ScriptSegment.startTime = [0, 4, 16, 32, 50, 55]
  ∧ estimatedDuration exampleTexts = 59 := by
  refine ⟨layoutFrom_map_duration texts 0, layoutFrom_chain texts 0,
    layoutFrom_getLast texts 0, fun y hy => layoutFrom_head_start texts 0 y hy,
    ?_, ?_, ?_⟩
  · simp only [exampleTexts, buildSegments, layoutFrom, calculateSegmentDuration_eq]
    decide
  · simp only [exampleTexts, buildSegments, layoutFrom, calculateSegmentDuration_eq]
    decide
  · simp only [exampleTexts, estimatedDuration, finalTime, calculateSegmentDuration_eq]
    decide

/-- Witness for `timelineBuilder_layout` at the concrete text list
`["a b"]`, discharging its nonemptiness hypothesis. -/
theorem timelineBuilder_layout_witness :
    ((buildSegments [str "a b"]).getLast?).map ScriptSegment.endTime
      = some (estimatedDuration [str "a b"]) :=
  (timelineBuilder_layout [str "a b"]).2.2.1 (by decide)

/-- C1 counterexample: on the text `"a  b"` (two spaces), the code's word
count `text.split(' ').length` is 3 and the assigned duration is
`ceil(3 / 2.5) = 2` seconds, while whitespace tokenization gives 2 words
and the claimed duration `ceil(2 / 2.5) = 1` second — so the claim's
"wordCount is derived ... by whitespace tokenization" fails on the code. -/
theorem timelineBuilder_tokenization_counterexample :
    wordCount (str "a  b") = 3
  ∧ whitespaceWordCount (str "a  b") = 2
  ∧ (buildSegments [str "a  b"]).map ScriptSegment.duration = [2]
  ∧ calculateSegmentDuration (whitespaceWordCount (str "a  b")) = 1 := by
  refine ⟨by decide, by decide, ?_, ?_⟩
  · simp only [buildSegments, layoutFrom, calculateSegmentDuration_eq]
    decide
  · rw [calculateSegmentDuration_eq]
    decide

theorem cuesFrom_length (segs : List ScriptSegment) : ∀ k,
    (cuesFrom k segs).length = segs.length := by
  induction segs with
  | nil => intro k; rfl
  | cons s rest ih => intro k; simp [cuesFrom, ih]

theorem cuesFrom_map_index (segs : List ScriptSegment) : ∀ k,
    (cuesFrom k segs).map CaptionCue.index = List.range' k segs.length := by
  induction segs with
  | nil => intro k; rfl
  | cons s rest ih => intro k; simp [cuesFrom, ih, List.range']

theorem cuesFrom_map_fields (segs : List ScriptSegment) : ∀ k,
    (cuesFrom k segs).map (fun c => (c.startTime, c.endTime, c.text))
      = segs.map (fun s => (s.startTime, s.endTime, s.text)) := by
  induction segs with
  | nil => intro k; rfl
  | cons s rest ih => intro k; simp [cuesFrom, ih]

theorem captionsLoop_eq_flatten (segs : List ScriptSegment) : ∀ k,
    captionsLoop k segs = ((cuesFrom k segs).map renderCue).flatten := by
  induction segs with
  | nil => intro k; rfl
  | cons s rest ih => intro k; simp [captionsLoop, cuesFrom, ih]

theorem natDigits_small (n : ℕ) (h : n < 10) : natDigits n = [digitChar n] := by
  simp [natDigits, natDigitsAux, h]

theorem natDigits_two_digit (n : ℕ) (h1 : 10 ≤ n) (h2 : n < 100) :
    natDigits n = [digitChar (n / 10), digitChar (n % 10)] := by
  obtain ⟨m, rfl⟩ : ∃ m, n = m + 1 := ⟨n - 1, by omega⟩
  unfold natDigits natDigitsAux
  rw [if_neg (by omega)]
  obtain ⟨p, hp⟩ : ∃ p, m = p + 1 := ⟨m - 1, by omega⟩
  rw [hp]
  rw [natDigitsAux, if_pos (by omega)]
  rfl

/-- For values below 100 the `padStart 2` field is exactly two
characters. -/
theorem padTwo_length (n : ℕ) (h : n < 100) :
    (padStart (natDigits n) 2 '0').length = 2 := by
  by_cases h10 : n < 10
  · rw [natDigits_small n h10]; rfl
  · rw [natDigits_two_digit n (by omega) h]; rfl

/-- With integer seconds the millisecond field is always `000`. -/
theorem formatTime_ms (t : ℕ) :
    padStart (natDigits (t % 1 * 1000)) 3 '0' = str "000" := by
  rw [Nat.mod_one]
  decide

/-- Every rendered timestamp has the `HH:MM:SS,mmm` shape: three
`padStart 2` fields joined by colons, a comma, and `000`, with minutes
and seconds below 60. -/
theorem formatTime_shape (t : ℕ) :
    formatTime t
      = padStart (natDigits (t / 3600)) 2 '0' ++ str ":"
        ++ padStart (natDigits (t % 3600 / 60)) 2 '0' ++ str ":"
        ++ padStart (natDigits (t % 60)) 2 '0' ++ str ","
        ++ str "000"
  ∧ t % 3600 / 60 < 60 ∧ t % 60 < 60 := by
  refine ⟨?_, by omega, by omega⟩
  unfold formatTime
  rw [formatTime_ms]

/-- Below 100 hours the rendered timestamp is exactly 12 characters:
zero-padded two-digit fields plus `,mmm`. -/
theorem formatTime_length (t : ℕ) (h : t < 360000) :
    (formatTime t).length = 12 := by
  rw [(formatTime_shape t).1]
  have p1 := padTwo_length (t / 3600) (by omega)
  have p2 := padTwo_length (t % 3600 / 60) (by omega)
  have p3 := padTwo_length (t % 60) (by omega)
  have l1 : (str ":").length = 1 := rfl
  have l2 : (str ",").length = 1 := rfl
  have l3 : (str "000").length = 3 := rfl
  simp only [List.length_append, p1, p2, p3, l1, l2, l3]

/-- C2: for every segment list the caption generator emits exactly one cue
per segment, 1-indexed in segment order, with cue start/end equal to the
segment's offsets; the document is the concatenation of the rendered
numbered-cue/time-range/text blocks, and each timestamp has the
zero-padded `HH:MM:SS,mmm` shape (exactly 12 characters below 100
hours). -/
theorem captionTrack_spec (segs : List ScriptSegment) :
    (captionCues segs).length = segs.length
  ∧ (captionCues segs).map CaptionCue.index = List.range' 1 segs.length
  ∧ (captionCues segs).map (fun c => (c.startTime, c.endTime, c.text))
      = segs.map (fun s => (s.startTime, s.endTime, s.text))
  ∧ captionsContent segs = ((captionCues segs).map renderCue).flatten
  ∧ (∀ t : ℕ,
      formatTime t
        = padStart (natDigits (t / 3600)) 2 '0' ++ str ":"
          ++ padStart (natDigits (t % 3600 / 60)) 2 '0' ++ str ":"
          ++ padStart (natDigits (t % 60)) 2 '0' ++ str ","
          ++ str "000"
      ∧ t % 3600 / 60 < 60 ∧ t % 60 < 60)
  ∧ (∀ t : ℕ, t < 360000 → (formatTime t).length = 12) :=
  ⟨cuesFrom_length segs 1, cuesFrom_map_index segs 1, cuesFrom_map_fields segs 1,
   captionsLoop_eq_flatten segs 1, formatTime_shape, formatTime_length⟩

/-- Witness for `captionTrack_spec`: its 12-character-timestamp clause at
the concrete time 59 s. -/
theorem captionTrack_spec_witness : (formatTime 59).length = 12 :=
  (captionTrack_spec []).2.2.2.2.2 59 (by norm_num)

/-- C3: a failed or timed-out renderer invocation, or a reported success
whose output file is zero bytes, makes `generateVideo` return a terminal
error; the renderer is invoked exactly once in every run (no retry or
degraded re-attempt), the invocation is bounded by the 300000 ms = 300 s
default timeout, and a returned success path always corresponds to a
non-zero-byte file. -/
theorem videoGeneration_failure_semantics (env : RenderEnv) (p : Str) :
    (generateVideoRun env p).2 = 1
  ∧ (env.outcome = .failure ∨ env.outcome = .timeout →
      ∃ e, (generateVideoRun env p).1 = .error e)
  ∧ (env.outcome = .success → env.outputSize = 0 →
      (generateVideoRun env p).1 = .error (str "Generated video file is empty"))
  ∧ (∀ q, (generateVideoRun env p).1 = .ok q → q = p ∧ env.outputSize ≠ 0)
  ∧ renderTimeoutMs = 300 * 1000 := by
  obtain ⟨o, sz⟩ := env
  refine ⟨?_, ?_, ?_, ?_, rfl⟩ <;>
    cases o <;>
      simp [generateVideoRun, renderInvocation] <;>
        by_cases hsz : sz = 0 <;> simp [hsz]

/-- Witness for `videoGeneration_failure_semantics` at a concrete failing
environment. -/
theorem videoGeneration_failure_semantics_witness :
    ∃ e, (generateVideoRun ⟨.failure, 0⟩ (str "out.mp4")).1 = .error e :=
  (videoGeneration_failure_semantics ⟨.failure, 0⟩ (str "out.mp4")).2.1 (Or.inl rfl)

/-- Every per-asset display slot is the uniform 2 seconds. -/
theorem segmentDurations_replicate (assets : List Str) :
    segmentDurations assets = List.replicate assets.length 2 := by
  induction assets with
  | nil => rfl
  | cons a rest ih =>
    simp only [segmentDurations, List.map_cons, List.length_cons,
      List.replicate_succ] at ih ⊢
    exact congrArg (List.cons 2) ih

/-- Zipping the assets with their display durations pairs each asset
with 2. -/
theorem assets_zip_durations (assets : List Str) :
    assets.zip (segmentDurations assets) = assets.map (fun a => (a, 2)) := by
  induction assets with
  | nil => rfl
  | cons a rest ih =>
    simp [segmentDurations] at ih ⊢
    exact ih

/-- Closed form of the input-option accumulator: one `-loop 1 -t d -i`
group per asset, in list order. -/
theorem renderInputsLoop_fst (ps : List (Str × ℕ)) : ∀ i,
    (renderInputsLoop ps i).1
      = (ps.map (fun p =>
          str "-loop 1 -t " ++ natDigits p.2 ++ str " -i \"" ++ p.1 ++ str "\" ")).flatten := by
  induction ps with
  | nil => intro i; rfl
  | cons p rest ih =>
    intro i
    obtain ⟨a, d⟩ := p
    simp [renderInputsLoop, ih (i + 1), List.append_assoc]

/-- Closed form of the `setpts` filter accumulator: the filters for input
streams `i, i+1, …` in order. -/
theorem renderInputsLoop_snd (ps : List (Str × ℕ)) : ∀ i,
    (renderInputsLoop ps i).2
      = ((List.range' i ps.length).map (fun j =>
          str "[" ++ natDigits j ++ str ":v]setpts=PTS-STARTPTS[v"
            ++ natDigits j ++ str "];")).flatten := by
  induction ps with
  | nil => intro i; rfl
  | cons p rest ih =>
    intro i
    obtain ⟨a, d⟩ := p
    simp [renderInputsLoop, ih (i + 1), List.range', List.append_assoc]

/-- Closed form of the concat labels: `[v i][v (i+1)]…` in order. -/
theorem concatLabels_eq (k : ℕ) : ∀ i,
    concatLabels i k
      = ((List.range' i k).map (fun j => str "[v" ++ natDigits j ++ str "]")).flatten := by
  induction k with
  | zero => intro i; rfl
  | succ k ih =>
    intro i
    simp [concatLabels, ih (i + 1), List.range', List.append_assoc]

/-- C4: each visual asset becomes one looped input held for the uniform
2-second slot (`segmentDurations` ignores the timeline), the `setpts` and
concat labels run over the input indices in exact segment order, and the
caption burn-in (`subtitles` with the fixed font/size/color style) is the
final stage of the filter graph. -/
theorem renderGraph_structure (args : RenderArgs) :
    segmentDurations args.assets = List.replicate args.assets.length 2
  ∧ (renderInputsLoop (args.assets.zip (segmentDurations args.assets)) 0).1
      = (args.assets.map (fun a =>
          str "-loop 1 -t " ++ natDigits 2 ++ str " -i \"" ++ a ++ str "\" ")).flatten
  ∧ natDigits 2 = str "2"
  ∧ (renderInputsLoop (args.assets.zip (segmentDurations args.assets)) 0).2
      = ((List.range' 0 args.assets.length).map (fun j =>
          str "[" ++ natDigits j ++ str ":v]setpts=PTS-STARTPTS[v"
            ++ natDigits j ++ str "];")).flatten
  ∧ concatLabels 0 args.assets.length
      = ((List.range' 0 args.assets.length).map (fun j =>
          str "[v" ++ natDigits j ++ str "]")).flatten
  ∧ (∃ pre, filterComplexFor args = pre ++ subtitlesStage args.captionsPath) := by
  refine ⟨segmentDurations_replicate args.assets, ?_, by decide, ?_, ?_, ?_⟩
  · rw [renderInputsLoop_fst, assets_zip_durations, List.map_map]
    rfl
  · rw [renderInputsLoop_snd, assets_zip_durations, List.length_map]
  · exact concatLabels_eq args.assets.length 0
  · exact ⟨_, rfl⟩

/-- C5: the render-graph compilation is a deterministic function of its
inputs — two compilations from equal argument records (same voiceover,
assets, caption path, music presence, music path, output path, resolution
and framerate) produce the identical command, with identical input list
and filter graph. -/
theorem renderGraph_deterministic (a b : RenderArgs) (h : a = b) :
    ffmpegCommand a = ffmpegCommand b
  ∧ inputsFor a = inputsFor b
  ∧ filterComplexFor a = filterComplexFor b := by
  rw [h]
  exact ⟨rfl, rfl, rfl⟩

/-- Witness for `renderGraph_deterministic` at a concrete argument
record. -/
theorem renderGraph_deterministic_witness :
    ffmpegCommand
        ⟨str "v.mp3", [str "s0.png"], str "c.srt", true, str "bg.mp3",
          str "o.mp4", 1920, 1080, 30⟩
      = ffmpegCommand
        ⟨str "v.mp3", [str "s0.png"], str "c.srt", true, str "bg.mp3",
          str "o.mp4", 1920, 1080, 30⟩ :=
  (renderGraph_deterministic _ _ rfl).1

/-- C7: with background music present, the narration input stream `n`
receives `volume=0.3` and the music input stream `n+1` receives
`volume=0.1` — a strictly lower level — and the two are mixed with
`amix=inputs=2:duration=longest`; with no music, the narration alone
passes at `volume=1.0`, and both branches of the filter construction are
total (absence of the music file is not an error). -/
theorem audioMix_levels (n : ℕ) :
    audioFilterStage n true
      = str ";[" ++ natDigits n ++ str ":a]volume=0.3[music];["
        ++ natDigits (n + 1)
        ++ str ":a]volume=0.1[bg];[music][bg]amix=inputs=2:duration=longest[aout]"
  ∧ audioFilterStage n false = str "[" ++ natDigits n ++ str ":a]volume=1.0[aout]"
  ∧ narrationVolumeWithMusic = 3 / 10
  ∧ musicVolume = 1 / 10
  ∧ narrationVolumeSolo = 1
  ∧ musicVolume < narrationVolumeWithMusic
  ∧ narrationVolumeWithMusic < narrationVolumeSolo := by
  refine ⟨rfl, rfl, by norm_num [narrationVolumeWithMusic],
    by norm_num [musicVolume], by norm_num [narrationVolumeSolo], ?_, ?_⟩
  · rw [musicVolume, narrationVolumeWithMusic]; norm_num
  · rw [narrationVolumeWithMusic, narrationVolumeSolo]; norm_num

/-- C6 (amended): `createSegmentImage` keeps whatever file a successful
primary `convert` invocation produced — including a zero-size one, with no
size check and no fallback — runs the ffmpeg flat-color fallback exactly
when the primary invocation errors, and raises an error to the caller
precisely when both invocations error. -/
theorem assetProvisioner_fallback (env : SegmentImageEnv) :
    (∀ s, env.convertResult = .ok s → createSegmentImage env = .file s false)
  ∧ (∀ s, env.convertResult = .error () → env.ffmpegResult = .ok s →
      createSegmentImage env = .file s true)
  ∧ (createSegmentImage env = .errorRaised ↔
      env.convertResult = .error () ∧ env.ffmpegResult = .error ()) := by
  obtain ⟨cr, fr⟩ := env
  cases cr <;> cases fr <;> simp [createSegmentImage]

/-- Witness for `assetProvisioner_fallback`: a failing primary and a
succeeding fallback at concrete sizes. -/
theorem assetProvisioner_fallback_witness :
    createSegmentImage ⟨Except.error (), Except.ok 5⟩ = AssetOutcome.file 5 true :=
  (assetProvisioner_fallback ⟨Except.error (), Except.ok 5⟩).2.1 5 rfl rfl

/-- C6 counterexample: a primary invocation that succeeds but produces a
zero-size file is returned as-is — no fallback fires — and when both the
primary and the fallback invocations error, the error reaches the caller
unhandled; both contradict the claim. -/
theorem assetProvisioner_counterexample :
    createSegmentImage ⟨Except.ok 0, Except.ok 1⟩ = AssetOutcome.file 0 false
  ∧ createSegmentImage ⟨Except.error (), Except.error ()⟩ = AssetOutcome.errorRaised :=
  ⟨rfl, rfl⟩

/-- C8 (amended): the composer tries the ImageMagick overlay, then the
ffmpeg drawtext overlay on the same frame, then the flat-color path; a
zero-size overlay result (levels 1–2) triggers the flat-color fallback,
but the flat-color output itself is returned without a size check, and a
terminal error occurs exactly when the flat-color invocation fails after
the earlier steps (frame extraction, both overlays, or the size check)
have failed. -/
theorem thumbnailComposer_ladder (env : ThumbEnv) :
    (generateThumbnail env = .terminalError ↔
      env.flatResult = .error ()
        ∧ (env.extractOk = false
            ∨ (env.convertOk = false ∧ env.drawtextOk = false)
            ∨ env.overlaySize = 0))
  ∧ (env.extractOk = true → env.convertOk = true → 0 < env.overlaySize →
      generateThumbnail env = .image env.overlaySize 1)
  ∧ (env.extractOk = true → env.convertOk = false → env.drawtextOk = true →
      0 < env.overlaySize → generateThumbnail env = .image env.overlaySize 2)
  ∧ (∀ s, env.flatResult = .ok s → generateThumbnail env ≠ .terminalError) := by
  obtain ⟨e, c, d, sz, fr⟩ := env
  cases e <;> cases c <;> cases d <;> cases fr <;>
    by_cases hsz : sz = 0 <;>
      simp_all [generateThumbnail, createThumbnailWithOverlay,
        generateFallbackThumbnail]

/-- Witness for `thumbnailComposer_ladder`: the primary overlay path on a
fully healthy environment. -/
theorem thumbnailComposer_ladder_witness :
    generateThumbnail ⟨true, true, true, 7, Except.ok 3⟩ = ThumbOutcome.image 7 1 :=
  (thumbnailComposer_ladder ⟨true, true, true, 7, Except.ok 3⟩).2.1 rfl rfl
    (by norm_num)

/-- C8 counterexample: when both overlay invocations fail and the
flat-color invocation succeeds with a zero-byte file, the composer
returns that empty image — contradicting "every fallback level produces a
non-empty image"; and when frame extraction fails the drawtext level is
never attempted, yet a failing flat-color invocation still yields the
terminal error — contradicting "terminal error only if every level
fails". -/
theorem thumbnailComposer_counterexample :
    generateThumbnail ⟨true, false, false, 1, Except.ok 0⟩ = ThumbOutcome.image 0 3
  ∧ generateThumbnail ⟨false, true, true, 5, Except.error ()⟩ = ThumbOutcome.terminalError :=
  ⟨rfl, rfl⟩

/-- C9 (amended): an empty segment list yields a zero-length timeline
without error, but no downstream stage raises an `EmptyTimelineError` (no
such error exists in the code): the caption generator succeeds with an
empty document and zero cues, the render-graph compiler still builds a
graph whose concat stage has `n=0` (a malformed renderer command), and
the renderer is still invoked exactly once. -/
theorem emptyTimeline_behavior (m : Bool) (voice cap mus out : Str) (w h fr : ℕ) :
    buildSegments [] = []
  ∧ estimatedDuration [] = 0
  ∧ captionsContent [] = []
  ∧ captionCues [] = []
  ∧ filterComplexFor ⟨voice, [], cap, m, mus, out, w, h, fr⟩
      = str "concat=n=" ++ natDigits 0 ++ str ":v=1:a=0[outv];"
        ++ audioFilterStage 0 m ++ subtitlesStage cap
  ∧ natDigits 0 = str "0"
  ∧ (∀ env p, (generateVideoRun env p).2 = 1) := by
  refine ⟨rfl, rfl, rfl, rfl, ?_, rfl, ?_⟩
  · simp [filterComplexFor, renderInputsLoop, concatLabels, segmentDurations]
  · intro env p
    obtain ⟨o, sz⟩ := env
    cases o
    · simp only [generateVideoRun, renderInvocation]
      split <;> rfl
    · rfl
    · rfl

/-- C9 counterexample: consuming the empty timeline, the caption stage
does not fail — it returns the empty document — and the compiled filter
graph is the concrete malformed `concat=n=0` graph handed to the external
renderer; no `EmptyTimelineError` is surfaced by any stage. -/
theorem emptyTimeline_counterexample :
    captionsContent [] = []
  ∧ filterComplexFor
        ⟨str "v.mp3", [], str "c.srt", false, str "m.mp3", str "o.mp4",
          1920, 1080, 30⟩
      = str "concat=n=0:v=1:a=0[outv];[0:a]volume=1.0[aout];[outv]subtitles=\x27c.srt\x27:force_style=\x27FontName=Arial,FontSize=24,PrimaryColour=&HFFFFFF&\x27[finalv]" :=
  ⟨rfl, by decide⟩

/-- C10: the thumbnail title is the topic query itself when it has at
most 40 characters and otherwise its first 40 characters followed by
`...`, so it never exceeds 43 characters; the randomly drawn opener is
computed but never used, so the result is independent of the random
draw. -/
theorem thumbnailTitle_spec (r : ℕ) (q : Str) :
    (q.length ≤ 40 → createThumbnailTitle r q = q)
  ∧ (40 < q.length → createThumbnailTitle r q = q.take 40 ++ str "...")
  ∧ (createThumbnailTitle r q).length ≤ 43
  ∧ (∀ r2, createThumbnailTitle r q = createThumbnailTitle r2 q) := by
  refine ⟨?_, ?_, ?_, fun r2 => rfl⟩
  · intro h
    simp only [createThumbnailTitle]
    rw [if_neg (by omega)]
  · intro h
    simp only [createThumbnailTitle]
    rw [if_pos h]
  · by_cases h : 40 < q.length
    · simp only [createThumbnailTitle]
      rw [if_pos h]
      have h3 : (str "...").length = 3 := rfl
      simp only [List.length_append, List.length_take, h3]
      omega
    · simp only [createThumbnailTitle]
      rw [if_neg h]
      omega

/-- Witness for `thumbnailTitle_spec` on a short and a long concrete
query. -/
theorem thumbnailTitle_spec_witness :
    createThumbnailTitle 0 (str "AI tools") = str "AI tools"
  ∧ createThumbnailTitle 3 (mkWords 30) = (mkWords 30).take 40 ++ str "..." :=
  ⟨(thumbnailTitle_spec 0 (str "AI tools")).1 (by decide),
   (thumbnailTitle_spec 3 (mkWords 30)).2.1 (by decide)⟩

end AutomateYT
